import Mathlib

/-!
Shallow embedding of the meter-polling core of the two Python services
(dbus-shelly-em.py, the multi-device single-channel "EM" variant, and
dbus-shelly-3em-smartmeter.py, the single-device three-phase "3EM" variant).

Numeric JSON values are idealised as rationals; the derived current uses
Real.sqrt (math.hypot).  Python exceptions are modelled as an explicit
exception type, and the two except-clauses of each _update are modelled by
classifying inputs by the exception class they raise.
-/

/-- Model of a Python float value: math.isfinite distinguishes nan and the
infinities from finite values.  Finite payloads are idealised as rationals. -/
inductive PyF where
  | nan
  | inf
  | ninf
  | fin (x : ℚ)
deriving DecidableEq

/-- math.isfinite. -/
def PyF.isFinite : PyF → Bool
  | .fin _ => true
  | _ => false

/-- DbusShellyEmService._calc_current: returns 0.0 when any input is
non-finite or voltage is not positive, otherwise math.hypot(p, q) / v,
i.e. sqrt(p^2 + q^2) / v.  (The leading float(x or 0.0) conversions are
numerically the identity on float inputs: 0.0 maps to 0.0 and every other
float, including nan and the infinities, is truthy and kept.) -/
noncomputable def calc_current (power reactive voltage : PyF) : ℝ :=
  match power, reactive, voltage with
  | .fin p, .fin q, .fin v =>
      if v ≤ 0 then 0 else Real.sqrt ((p : ℝ) ^ 2 + (q : ℝ) ^ 2) / (v : ℝ)
  | _, _, _ => 0

/-- A JSON value occurring in a numeric or boolean field of a Shelly
channel object (strings are not modelled; none of the claims exercises
them). -/
inductive JVal where
  | null
  | num (x : ℚ)
  | boolean (b : Bool)
deriving DecidableEq

/-- float(em.get(key, 0) or 0): an absent key yields the default 0, a JSON
null (Python None) is falsy and replaced by 0, a number is kept (0 is falsy
but replaced by the numerically equal 0), a boolean converts via float(). -/
def coerceNum : Option JVal → ℚ
  | none => 0
  | some .null => 0
  | some (.num x) => x
  | some (.boolean b) => if b then 1 else 0

/-- bool(em.get("is_valid", True)): an absent key defaults to True, null is
falsy, a number is truthy iff nonzero, a boolean is itself. -/
def validFlag : Option JVal → Bool
  | none => true
  | some .null => false
  | some (.num x) => decide (x ≠ 0)
  | some (.boolean b) => b

/-- One element of the "emeters" array in the Shelly status JSON, as read
by the EM variant: every field is read with em.get(key, default), so each
is optional. -/
structure Emeter where
  power : Option JVal
  voltage : Option JVal
  reactive : Option JVal
  total : Option JVal
  total_returned : Option JVal
  is_valid : Option JVal
deriving DecidableEq

/-- The parsed status JSON object as used by the EM variant's _update:
meter_data.get("emeters", []) — the key may be absent (default []). -/
structure MeterDataEm where
  emeters : Option (List Emeter)
deriving DecidableEq

/-- The published data points of one EM device: the dbus paths written by
DbusShellyEmService._update, plus the 8-bit /UpdateIndex counter. -/
structure EmState where
  acPower : ℚ
  acVoltage : ℚ
  acCurrent : ℝ
  l1Power : ℚ
  l1Voltage : ℚ
  l1Current : ℝ
  energyForward : ℚ
  energyReverse : ℚ
  updateIndex : ℕ

/-- All data points start at 0 (the "initial" values of the paths dict). -/
noncomputable def emInit : EmState :=
  ⟨0, 0, 0, 0, 0, 0, 0, 0, 0⟩

/-- Outcome of the fetch step of one EM poll cycle, classified by the
exception class _getShellyData raises (or ok with the parsed JSON object).
valueErr covers malformed JSON / non-dict bodies (ValueError), connErr and
timeoutErr the network failures; these three are caught by _update's first
except clause.  httpErr is requests.HTTPError from raise_for_status, which
is NOT in that clause's tuple and falls through to the generic
"except Exception" handler, as does otherErr (any other exception). -/
inductive InputEm where
  | ok (d : MeterDataEm)
  | valueErr
  | connErr
  | timeoutErr
  | httpErr
  | otherErr
deriving DecidableEq

/-- The exceptions caught by _update's first except clause
(ValueError, requests ConnectionError, requests Timeout, ConnectionError). -/
def InputEm.isCaughtFetchErr : InputEm → Bool
  | .valueErr => true
  | .connErr => true
  | .timeoutErr => true
  | _ => false

/-- The caught-exception branch of DbusShellyEmService._update: zeroes
/Ac/L1/Power, /Ac/Voltage, /Ac/Current, /Ac/L1/Voltage, /Ac/L1/Current,
/Ac/Power and increments /UpdateIndex mod 256; the energy data points are
not touched. -/
def emErrorBranch (s : EmState) : EmState :=
  { s with
    l1Power := 0
    acVoltage := 0
    acCurrent := 0
    l1Voltage := 0
    l1Current := 0
    acPower := 0
    updateIndex := (s.updateIndex + 1) % 256 }

/-- The successful-publish tail of DbusShellyEmService._update for the
selected channel object em: coerce the fields, derive the current, write
all data points and increment /UpdateIndex mod 256. -/
noncomputable def emPublish (em : Emeter) (s : EmState) : EmState :=
  let p := coerceNum em.power
  let v := coerceNum em.voltage
  let q := coerceNum em.reactive
  let i := calc_current (.fin p) (.fin q) (.fin v)
  { s with
    acPower := p
    acVoltage := v
    acCurrent := i
    l1Power := p
    l1Voltage := v
    l1Current := i
    energyForward := coerceNum em.total / 1000
    energyReverse := coerceNum em.total_returned / 1000
    updateIndex := (s.updateIndex + 1) % 256 }

/-- DbusShellyEmService._update, one poll cycle over the prior published
state.  On ok data: a missing channel raises ValueError ("no emeters[ch]")
which the first except clause catches (error branch); a channel whose
is_valid flag is falsy returns early with no mutation (soft skip);
otherwise the publish tail runs.  Caught fetch exceptions take the error
branch; HTTPError and any other exception reach the generic handler, which
only logs (no mutation). -/
noncomputable def emUpdate (ch : ℕ) (inp : InputEm) (s : EmState) : EmState :=
  match inp with
  | .ok d =>
      match (d.emeters.getD [])[ch]? with
      | none => emErrorBranch s
      | some em =>
          if validFlag em.is_valid then emPublish em s else s
  | .valueErr => emErrorBranch s
  | .connErr => emErrorBranch s
  | .timeoutErr => emErrorBranch s
  | .httpErr => s
  | .otherErr => s

/-!
Three-phase variant (dbus-shelly-3em-smartmeter.py).  Here _update indexes
the JSON directly (meter_data["emeters"][k]["voltage"] and so on), so each
channel object is modelled with its five numeric fields present; a channel
array that is too short raises IndexError at the first out-of-range access,
which only the generic "except Exception" handler catches, after the
preceding dbus writes have already happened (partial update). -/

/-- One element of the "emeters" array as indexed by the 3EM variant. -/
structure Em3 where
  voltage : ℚ
  current : ℚ
  power : ℚ
  total : ℚ
  total_returned : ℚ
deriving DecidableEq

instance : Inhabited Em3 := ⟨⟨0, 0, 0, 0, 0⟩⟩

/-- The parsed status JSON as used by the 3EM variant's _update:
"total_power" is read with a bare index (KeyError if absent), "emeters"
with meter_data.get("emeters", []) in the remap guard and bare indexing in
the writes (an absent key and an empty array behave alike: no swap, then
an exception at the first channel access). -/
structure Meter3Data where
  total_power : Option ℚ
  emeters : List Em3
deriving DecidableEq

/-- The published data points of the 3EM device.  The /Ac/Voltage and
/Ac/Current paths exist (registered with initial 0) but _update never
writes them. -/
structure St3 where
  acPower : ℚ
  acVoltage : ℚ
  acCurrent : ℚ
  l1V : ℚ
  l2V : ℚ
  l3V : ℚ
  l1C : ℚ
  l2C : ℚ
  l3C : ℚ
  l1P : ℚ
  l2P : ℚ
  l3P : ℚ
  l1EF : ℚ
  l2EF : ℚ
  l3EF : ℚ
  l1ER : ℚ
  l2ER : ℚ
  l3ER : ℚ
  energyForward : ℚ
  energyReverse : ℚ
  updateIndex : ℕ
deriving DecidableEq

/-- All data points start at 0. -/
def st3Init : St3 :=
  ⟨0, 0, 0, 0, 0, 0, 0, 0, 0, 0, 0, 0, 0, 0, 0, 0, 0, 0, 0, 0, 0⟩

/-- The configured ONPREMISE L1Position, as the outcome of
int(self.config["ONPREMISE"].get("L1Position", "1")): a missing section
raises KeyError, a missing key defaults to "1", a non-integer string raises
ValueError; KeyError and ValueError both fall back to 1. -/
inductive CfgL1 where
  | noSection
  | noKey
  | notInt
  | val (n : ℤ)
deriving DecidableEq

/-- remapL1 after the try/except fallback and the clamp to the set
(1, 2, 3): anything outside that set becomes 1. -/
def remapL1val (c : CfgL1) : ℤ :=
  let r : ℤ := match c with
    | .val n => n
    | _ => 1
  if r = 1 ∨ r = 2 ∨ r = 3 then r else 1

/-- The in-place channel swap of _update: when remapL1 > 1 and the array
has at least 3 elements, emeters[0] and emeters[remapL1 - 1] are exchanged
(via the old_l1 temporary); otherwise the array is left as is. -/
def applyRemap (c : CfgL1) (l : List Em3) : List Em3 :=
  let r := remapL1val c
  if 1 < r ∧ 3 ≤ l.length then
    let k := (r - 1).toNat
    (l.set 0 (l.getD k default)).set k (l.getD 0 default)
  else l

/-- The tail of the successful write sequence once channels 0, 1, 2 have
all been read without an exception: the remaining per-phase writes, the
aggregate energies summed from the per-phase data points just written, and
the /UpdateIndex increment mod 256. -/
def publish3 (e0 e1 e2 : Em3) (s : St3) : St3 :=
  let t := { s with
    l3V := e2.voltage
    l1C := e0.current
    l2C := e1.current
    l3C := e2.current
    l1P := e0.power
    l2P := e1.power
    l3P := e2.power
    l1EF := e0.total / 1000
    l2EF := e1.total / 1000
    l3EF := e2.total / 1000
    l1ER := e0.total_returned / 1000
    l2ER := e1.total_returned / 1000
    l3ER := e2.total_returned / 1000 }
  { t with
    energyForward := t.l1EF + t.l2EF + t.l3EF
    energyReverse := t.l1ER + t.l2ER + t.l3ER
    updateIndex := (t.updateIndex + 1) % 256 }

/-- The write sequence of the 3EM _update's try block, with the exception
points made explicit: a missing "total_power" key stops before any write;
each missing channel index stops after the writes that already happened
(the exception is then swallowed by the generic handler, so the partial
state is the cycle's result).  The write order follows the source:
/Ac/Power, then L1/L2/L3 voltage (the first access of each channel), then
the remaining per-phase and aggregate writes. -/
def upd3success (tp : Option ℚ) (ems : List Em3) (s : St3) : St3 :=
  match tp with
  | none => s
  | some tpv =>
    let s1 := { s with acPower := tpv }
    match ems with
    | [] => s1
    | e0 :: rest1 =>
      let s2 := { s1 with l1V := e0.voltage }
      match rest1 with
      | [] => s2
      | e1 :: rest2 =>
        let s3 := { s2 with l2V := e1.voltage }
        match rest2 with
        | [] => s3
        | e2 :: _ => publish3 e0 e1 e2 s3

/-- Outcome of the fetch step of one 3EM poll cycle: same exception
classification as the EM variant (valueErr also covers the "Converting
response to JSON failed" check on a falsy body). -/
inductive Input3 where
  | ok (d : Meter3Data)
  | valueErr
  | connErr
  | timeoutErr
  | httpErr
  | otherErr
deriving DecidableEq

/-- The exceptions caught by the 3EM _update's first except clause. -/
def Input3.isCaughtFetchErr : Input3 → Bool
  | .valueErr => true
  | .connErr => true
  | .timeoutErr => true
  | _ => false

/-- The caught-exception branch of the 3EM _update: zeroes /Ac/L1/Power,
/Ac/L2/Power, /Ac/L3/Power and /Ac/Power and increments /UpdateIndex mod
256.  The voltage, current and energy data points are not touched. -/
def threeEmErrorBranch (s : St3) : St3 :=
  { s with
    l1P := 0
    l2P := 0
    l3P := 0
    acPower := 0
    updateIndex := (s.updateIndex + 1) % 256 }

/-- DbusShelly3emService._update, one poll cycle: on ok data the channel
remap runs first, then the write sequence; caught fetch exceptions take
the error branch; HTTPError and all other exceptions reach the generic
handler (no mutation beyond whatever writes already happened). -/
def update3 (c : CfgL1) (inp : Input3) (s : St3) : St3 :=
  match inp with
  | .ok d => upd3success d.total_power (applyRemap c d.emeters) s
  | .valueErr => threeEmErrorBranch s
  | .connErr => threeEmErrorBranch s
  | .timeoutErr => threeEmErrorBranch s
  | .httpErr => s
  | .otherErr => s

/-!
Fetch models (_getShellyData of both variants).  One HTTP GET attempt
either raises a read-timeout, raises a connection-level error (covering
requests ConnectionError and ConnectTimeout), or yields a response with a
status (2xx or not) and a body. -/

/-- The exception classes relevant to these programs. -/
inductive PyExc where
  | valueError
  | connError
  | timeoutError
  | httpError
deriving DecidableEq

/-- Body of an HTTP response as seen by the EM variant: r.json() raises
ValueError on a non-JSON body, and the explicit isinstance check raises
ValueError on JSON that is not an object. -/
inductive BodyEm where
  | notJson
  | jsonNonDict
  | jsonDict (d : MeterDataEm)
deriving DecidableEq

/-- Outcome of one GET attempt by the EM variant. -/
inductive AttemptEm where
  | readTimeout
  | connectErr
  | resp (ok2xx : Bool) (b : BodyEm)
deriving DecidableEq

/-- Processing of a received response by the EM _getShellyData:
raise_for_status first (HTTPError on non-2xx, re-raised after logging),
then the JSON parse and the isinstance-dict check (ValueError). -/
def emProcessResp (ok2xx : Bool) (b : BodyEm) : Except PyExc MeterDataEm :=
  if ok2xx = false then .error .httpError
  else
    match b with
    | .notJson => .error .valueError
    | .jsonNonDict => .error .valueError
    | .jsonDict d => .ok d

/-- DbusShellyEmService._getShellyData as a function of the outcomes of
the first and (if reached) second GET attempt, returning the result and
the number of GETs issued: a ReadTimeout on the first attempt triggers
exactly one retry, whose own exception (if any) propagates; any other
first-attempt failure or any response is handled with a single GET. -/
def emGetShellyData (a1 a2 : AttemptEm) : Except PyExc MeterDataEm × ℕ :=
  match a1 with
  | .readTimeout =>
      match a2 with
      | .readTimeout => (.error .timeoutError, 2)
      | .connectErr => (.error .connError, 2)
      | .resp ok b => (emProcessResp ok b, 2)
  | .connectErr => (.error .connError, 1)
  | .resp ok b => (emProcessResp ok b, 1)

/-- Body of an HTTP response as seen by the 3EM variant: r.json() raises
ValueError on a non-JSON body, and the "if not meter_data" check raises
ValueError on a falsy parsed value (empty object, null, 0, empty string). -/
inductive Body3 where
  | notJson
  | jsonFalsy
  | jsonData (d : Meter3Data)
deriving DecidableEq

/-- Outcome of one GET attempt by the 3EM variant. -/
inductive Attempt3 where
  | readTimeout
  | connectErr
  | resp (ok2xx : Bool) (b : Body3)
deriving DecidableEq

/-- DbusShelly3emService._getShellyData: a single GET with no retry of any
kind; raise_for_status then the JSON and falsy checks. -/
def threeEmGetShellyData (a : Attempt3) : Except PyExc Meter3Data × ℕ :=
  match a with
  | .readTimeout => (.error .timeoutError, 1)
  | .connectErr => (.error .connError, 1)
  | .resp ok b =>
      (if ok = false then .error .httpError
       else
         match b with
         | .notJson => .error .valueError
         | .jsonFalsy => .error .valueError
         | .jsonData d => .ok d, 1)

/-!
Startup / configuration validation models.  Config values are modelled at
the granularity of the checks the source performs on them (string-level
stripping and digit tests are folded into the parse-outcome constructors).
-/

/-- The DeviceInstance value of one EM device section, as classified by
di_str = cfg.get("DeviceInstance", "").strip(); the check
"not di_str or not di_str.isdigit()" lumps a missing key, a blank value
and a non-digit value together as invalid; digits n is an all-digit string
with value n (necessarily a non-negative integer). -/
inductive InstField where
  | invalid
  | digits (n : ℕ)
deriving DecidableEq

/-- The Role value after cfg.get("Role", "grid").strip().lower(): a
missing key defaults to grid; any string other than "pvinverter" and
"grid" is other. -/
inductive RoleField where
  | pvinverter
  | grid
  | other
deriving DecidableEq

/-- One [device:*] section of the EM variant's config. -/
structure EmDeviceCfg where
  deviceInstance : InstField
  role : RoleField
  hasHost : Bool
deriving DecidableEq

/-- The EM variant's whole config as load_config sees it. -/
structure EmConfig where
  hasGlobal : Bool
  devices : List EmDeviceCfg
deriving DecidableEq

/-- How a startup path ends: the process exits with the given code, or the
validation prefix passes and startup proceeds (dbus registration, serial
fetch and the main loop are outside this model). -/
inductive StartOutcome where
  | exits (code : ℕ)
  | proceeds
deriving DecidableEq

/-- The DeviceInstance uniqueness loop of the EM variant's main: walk the
device sections in order, exit(1) on the first invalid instance string or
the first instance already seen, else remember it and continue. -/
def emInstanceLoop : List EmDeviceCfg → List ℕ → StartOutcome
  | [], _ => .proceeds
  | d :: rest, seen =>
      match d.deviceInstance with
      | .invalid => .exits 1
      | .digits n =>
          if n ∈ seen then .exits 1 else emInstanceLoop rest (n :: seen)

/-- The EM variant's startup validation in the parent process:
load_config exits 1 on a missing [global] section and on an empty device
list, then main validates unique integer DeviceInstance values; if all
pass, one child process per device is spawned (proceeds). -/
def emMainStartup (c : EmConfig) : StartOutcome :=
  if c.hasGlobal = false then .exits 1
  else if c.devices.isEmpty then .exits 1
  else emInstanceLoop c.devices []

/-- The validation prefix of DbusShellyEmService.__init__, run in the
spawned per-device child process: sys.exit(1) on an invalid DeviceInstance,
then on a Role outside the allowed list, then on a missing/blank Host. -/
def emChildStartup (d : EmDeviceCfg) : StartOutcome :=
  match d.deviceInstance with
  | .invalid => .exits 1
  | .digits _ =>
      match d.role with
      | .pvinverter | .grid =>
          if d.hasHost = false then .exits 1 else .proceeds
      | .other => .exits 1

/-- The DEFAULT DeviceInstance value of the 3EM config, as consumed by
int(config["DEFAULT"]["DeviceInstance"]): the outer Option is key
presence (a missing key raises KeyError), notInt raises ValueError. -/
inductive Str3Int where
  | notInt
  | int (n : ℤ)
deriving DecidableEq

/-- The DEFAULT Role of the 3EM config, compared verbatim (no strip or
lower) against the allowed list. -/
inductive Role3 where
  | pvinverter
  | grid
  | other
deriving DecidableEq

/-- The 3EM variant's config, at the granularity of the startup checks. -/
structure Cfg3 where
  hasLogLevel : Bool
  accessTypeOnPremise : Bool
  onpremiseHostOk : Bool
  deviceInstance : Option Str3Int
  hasCustomName : Bool
  role : Option Role3
deriving DecidableEq

/-- The 3EM variant's startup, modelling main() and the prefix of
DbusShelly3emService.__init__ it runs inside its try block.
getLogLevel() runs before the try block, so a missing LogLevel key raises
an uncaught KeyError (the interpreter exits 1).  Inside the try block,
_getConfig's explicit check ("DEFAULT" is always present in a
configparser, so only the AccessType/ONPREMISE check can fire) raises
ValueError, int(DeviceInstance) raises KeyError or ValueError, and a
missing CustomName or Role raises KeyError; all of those are caught by
main's except clauses, logged, and main RETURNS NORMALLY: the process
exits 0.  Only an out-of-range Role calls exit(1), whose SystemExit is not
an Exception and escapes the handlers. -/
def threeEmStartup (c : Cfg3) : StartOutcome :=
  if c.hasLogLevel = false then .exits 1
  else if c.accessTypeOnPremise = true ∧ c.onpremiseHostOk = false then .exits 0
  else
    match c.deviceInstance with
    | none => .exits 0
    | some .notInt => .exits 0
    | some (.int _) =>
        if c.hasCustomName = false then .exits 0
        else
          match c.role with
          | none => .exits 0
          | some .pvinverter | some .grid => .proceeds
          | some .other => .exits 1

/-!  Helper lemmas shared by the verification of several claims. -/

theorem calc_current_fin (p q v : ℚ) :
    calc_current (.fin p) (.fin q) (.fin v) =
      if v ≤ 0 then 0 else Real.sqrt ((p : ℝ) ^ 2 + (q : ℝ) ^ 2) / (v : ℝ) := rfl

theorem emUpdate_ok_eq (ch : ℕ) (d : MeterDataEm) (s : EmState) :
    emUpdate ch (InputEm.ok d) s =
      match (d.emeters.getD [])[ch]? with
      | none => emErrorBranch s
      | some em => if validFlag em.is_valid then emPublish em s else s := rfl

theorem emUpdate_ok_valid (ch : ℕ) (d : MeterDataEm) (s : EmState) (em : Emeter)
    (hch : (d.emeters.getD [])[ch]? = some em)
    (hv : validFlag em.is_valid = true) :
    emUpdate ch (InputEm.ok d) s = emPublish em s := by
  rw [emUpdate_ok_eq, hch]
  simp [hv]

theorem emUpdate_ok_invalid (ch : ℕ) (d : MeterDataEm) (s : EmState) (em : Emeter)
    (hch : (d.emeters.getD [])[ch]? = some em)
    (hv : validFlag em.is_valid = false) :
    emUpdate ch (InputEm.ok d) s = s := by
  rw [emUpdate_ok_eq, hch]
  simp [hv]

theorem emUpdate_ok_noChannel (ch : ℕ) (d : MeterDataEm) (s : EmState)
    (hch : (d.emeters.getD [])[ch]? = none) :
    emUpdate ch (InputEm.ok d) s = emErrorBranch s := by
  rw [emUpdate_ok_eq, hch]

theorem emUpdate_caught (ch : ℕ) (inp : InputEm) (s : EmState)
    (h : inp.isCaughtFetchErr = true) :
    emUpdate ch inp s = emErrorBranch s := by
  cases inp <;> simp_all [InputEm.isCaughtFetchErr, emUpdate]

theorem applyRemap_val2 (a b c : Em3) (t : List Em3) :
    applyRemap (CfgL1.val 2) (a :: b :: c :: t) = b :: a :: c :: t := by
  have hr : remapL1val (CfgL1.val 2) = 2 := rfl
  simp [applyRemap, hr, List.set]

theorem applyRemap_length (c : CfgL1) (l : List Em3) :
    (applyRemap c l).length = l.length := by
  simp only [applyRemap]
  split
  · simp
  · rfl

theorem update3_ok_eq (c : CfgL1) (d : Meter3Data) (s : St3) :
    update3 c (Input3.ok d) s = upd3success d.total_power (applyRemap c d.emeters) s := rfl

theorem update3_caught (c : CfgL1) (inp : Input3) (s : St3)
    (h : inp.isCaughtFetchErr = true) :
    update3 c inp s = threeEmErrorBranch s := by
  cases inp <;> simp_all [Input3.isCaughtFetchErr, update3]

theorem upd3success_acVoltage (tp : Option ℚ) (ems : List Em3) (s : St3) :
    (upd3success tp ems s).acVoltage = s.acVoltage := by
  cases tp <;> rcases ems with _ | ⟨e0, _ | ⟨e1, _ | ⟨e2, t⟩⟩⟩ <;> rfl

theorem upd3success_acCurrent (tp : Option ℚ) (ems : List Em3) (s : St3) :
    (upd3success tp ems s).acCurrent = s.acCurrent := by
  cases tp <;> rcases ems with _ | ⟨e0, _ | ⟨e1, _ | ⟨e2, t⟩⟩⟩ <;> rfl

theorem upd3success_updateIndex_full (tpv : ℚ) (ems : List Em3) (s : St3)
    (hlen : 3 ≤ ems.length) :
    (upd3success (some tpv) ems s).updateIndex = (s.updateIndex + 1) % 256 := by
  rcases ems with _ | ⟨e0, _ | ⟨e1, _ | ⟨e2, t⟩⟩⟩
  · simp at hlen
  · simp at hlen
  · simp at hlen
  · rfl

theorem upd3success_updateIndex_short (tp : Option ℚ) (ems : List Em3) (s : St3)
    (hlen : ems.length < 3) :
    (upd3success tp ems s).updateIndex = s.updateIndex := by
  cases tp <;> rcases ems with _ | ⟨e0, _ | ⟨e1, _ | ⟨e2, t⟩⟩⟩ <;>
    first
    | rfl
    | (simp at hlen; omega)

/-- C2: calc_current returns 0 whenever any input is non-finite, returns 0
for every finite triple with voltage at most 0, and returns
sqrt(p^2 + q^2) / v for all finite p, q and positive v. -/
theorem c2_derive_current :
    (∀ p q v : PyF,
        (p.isFinite = false ∨ q.isFinite = false ∨ v.isFinite = false) →
        calc_current p q v = 0) ∧
    (∀ p q v : ℚ, v ≤ 0 → calc_current (.fin p) (.fin q) (.fin v) = 0) ∧
    (∀ p q v : ℚ, 0 < v →
        calc_current (.fin p) (.fin q) (.fin v) =
          Real.sqrt ((p : ℝ) ^ 2 + (q : ℝ) ^ 2) / (v : ℝ)) := by
  refine ⟨?_, ?_, ?_⟩
  · intro p q v h
    cases p <;> cases q <;> cases v <;> simp_all [calc_current, PyF.isFinite]
  · intro p q v h
    rw [calc_current_fin, if_pos h]
  · intro p q v h
    rw [calc_current_fin, if_neg (not_le.mpr h)]

theorem c2_derive_current_witness :
    calc_current PyF.nan (PyF.fin 1) (PyF.fin 2) = 0 ∧
    calc_current (PyF.fin 5) (PyF.fin 7) (PyF.fin 0) = 0 ∧
    calc_current (PyF.fin 3) (PyF.fin 4) (PyF.fin 2) =
      Real.sqrt (((3 : ℚ) : ℝ) ^ 2 + ((4 : ℚ) : ℝ) ^ 2) / ((2 : ℚ) : ℝ) :=
  ⟨c2_derive_current.1 _ _ _ (Or.inl rfl),
   c2_derive_current.2.1 5 7 0 le_rfl,
   c2_derive_current.2.2 3 4 2 (by norm_num)⟩

/-- C6: on a sample with at least 3 channels, a configured L1 position of
2 swaps exactly channel indices 0 and 1 and leaves every other channel in
place; every configured value outside 1..3 (5, 0, 4, negatives, ...)
leaves any sample unchanged, and so does any configured value when the
sample has fewer than 3 channels. -/
theorem c6_channel_remap :
    (∀ l : List Em3, 3 ≤ l.length →
        (applyRemap (CfgL1.val 2) l)[0]? = l[1]? ∧
        (applyRemap (CfgL1.val 2) l)[1]? = l[0]? ∧
        (∀ i, 2 ≤ i → (applyRemap (CfgL1.val 2) l)[i]? = l[i]?)) ∧
    (∀ n : ℤ, n ≠ 1 → n ≠ 2 → n ≠ 3 →
        ∀ l : List Em3, applyRemap (CfgL1.val n) l = l) ∧
    (∀ c : CfgL1, ∀ l : List Em3, l.length < 3 → applyRemap c l = l) := by
  refine ⟨?_, ?_, ?_⟩
  · intro l hl
    rcases l with _ | ⟨a, _ | ⟨b, _ | ⟨c, t⟩⟩⟩ <;> simp at hl
    rw [applyRemap_val2]
    refine ⟨rfl, rfl, ?_⟩
    intro i hi
    obtain ⟨k, rfl⟩ : ∃ k, i = k + 2 := ⟨i - 2, by omega⟩
    simp
  · intro n h1 h2 h3 l
    have hr : remapL1val (CfgL1.val n) = 1 := by
      show (if n = 1 ∨ n = 2 ∨ n = 3 then n else 1) = 1
      rw [if_neg]
      push_neg
      exact ⟨h1, h2, h3⟩
    simp [applyRemap, hr]
  · intro c l h
    simp only [applyRemap]
    rw [if_neg]
    rintro ⟨-, h3⟩
    omega

theorem c6_channel_remap_witness :
    (3 : ℕ) ≤ ([⟨230, 1, 0, 0, 0⟩, ⟨231, 2, 0, 0, 0⟩, ⟨232, 3, 0, 0, 0⟩] : List Em3).length ∧
    (applyRemap (CfgL1.val 2) [⟨230, 1, 0, 0, 0⟩, ⟨231, 2, 0, 0, 0⟩, ⟨232, 3, 0, 0, 0⟩])[0]? =
      some ⟨231, 2, 0, 0, 0⟩ ∧
    (applyRemap (CfgL1.val 2) [⟨230, 1, 0, 0, 0⟩, ⟨231, 2, 0, 0, 0⟩, ⟨232, 3, 0, 0, 0⟩])[2]? =
      some ⟨232, 3, 0, 0, 0⟩ ∧
    applyRemap (CfgL1.val 5) [⟨230, 1, 0, 0, 0⟩, ⟨231, 2, 0, 0, 0⟩, ⟨232, 3, 0, 0, 0⟩] =
      [⟨230, 1, 0, 0, 0⟩, ⟨231, 2, 0, 0, 0⟩, ⟨232, 3, 0, 0, 0⟩] ∧
    applyRemap (CfgL1.val 0) [⟨230, 1, 0, 0, 0⟩, ⟨231, 2, 0, 0, 0⟩, ⟨232, 3, 0, 0, 0⟩] =
      [⟨230, 1, 0, 0, 0⟩, ⟨231, 2, 0, 0, 0⟩, ⟨232, 3, 0, 0, 0⟩] ∧
    applyRemap (CfgL1.val 4) [⟨230, 1, 0, 0, 0⟩, ⟨231, 2, 0, 0, 0⟩, ⟨232, 3, 0, 0, 0⟩] =
      [⟨230, 1, 0, 0, 0⟩, ⟨231, 2, 0, 0, 0⟩, ⟨232, 3, 0, 0, 0⟩] ∧
    applyRemap (CfgL1.val 2) [⟨230, 1, 0, 0, 0⟩, ⟨231, 2, 0, 0, 0⟩] =
      [⟨230, 1, 0, 0, 0⟩, ⟨231, 2, 0, 0, 0⟩] := by
  refine ⟨by decide, ?_, ?_,
    c6_channel_remap.2.1 5 (by decide) (by decide) (by decide) _,
    c6_channel_remap.2.1 0 (by decide) (by decide) (by decide) _,
    c6_channel_remap.2.1 4 (by decide) (by decide) (by decide) _,
    c6_channel_remap.2.2 (CfgL1.val 2) _ (by decide)⟩
  · rw [(c6_channel_remap.1 _ (by decide)).1]
    rfl
  · rw [(c6_channel_remap.1 _ (by decide)).2.2 2 (by decide)]
    rfl

/-- C7: when the selected channel object carries an explicitly false
is_valid flag, the cycle is a soft skip: the published state, including
every data point and the update counter, is exactly the prior state (in
particular nothing is zeroed and the cycle is not treated as a fetch
fault). -/
theorem c7_soft_invalid_skip (ch : ℕ) (d : MeterDataEm) (s : EmState) (em : Emeter)
    (hch : (d.emeters.getD [])[ch]? = some em)
    (hv : em.is_valid = some (JVal.boolean false)) :
    emUpdate ch (InputEm.ok d) s = s := by
  apply emUpdate_ok_invalid ch d s em hch
  rw [hv]
  rfl

theorem c7_soft_invalid_skip_witness :
    emUpdate 0
      (InputEm.ok ⟨some [⟨some (JVal.num 100), some (JVal.num 230), none,
        some (JVal.num 5000), some (JVal.num 7), some (JVal.boolean false)⟩]⟩)
      emInit = emInit :=
  c7_soft_invalid_skip 0 _ emInit
    ⟨some (JVal.num 100), some (JVal.num 230), none,
      some (JVal.num 5000), some (JVal.num 7), some (JVal.boolean false)⟩
    rfl rfl

/-- C1 counterexample: the claim includes HttpError among the fetch
failures whose error branch zeroes the power data points, but
requests.HTTPError is not in the except tuple of _update (it is not a
ValueError, a requests ConnectionError/Timeout or a builtin
ConnectionError), so it reaches the generic handler and nothing is
zeroed: with a prior published power of 1500 W, an HTTP-error cycle
leaves 1500 in place instead of 0. -/
theorem c1_counterexample :
    (emUpdate 0 InputEm.httpErr { emInit with acPower := 1500 }).acPower = 1500 ∧
    (1500 : ℚ) ≠ 0 :=
  ⟨rfl, by norm_num⟩

/-- C1 (amended): for every poll cycle whose fetch step fails with an
exception the first except clause catches (ValueError — covering
MalformedResponse and NoChannelData — requests ConnectionError/Timeout or
builtin ConnectionError, i.e. Unreachable), the EM poller zeroes every
power, current and voltage data point and the 3EM poller zeroes every
power data point while its voltage and current data points keep their
prior values; in both variants the update counter increments and the
forward and reverse energy data points keep exactly the values they had
before the failure, and they are unchanged across any sequence of
consecutive fetch failures.  HttpError reaches the generic handler
instead, which changes nothing at all (energies trivially preserved, but
no zeroing). -/
theorem c1_fetch_failure_frame :
    (∀ ch (inp : InputEm) (s : EmState), inp.isCaughtFetchErr = true →
      ((emUpdate ch inp s).acPower = 0 ∧ (emUpdate ch inp s).acVoltage = 0 ∧
        (emUpdate ch inp s).acCurrent = 0 ∧ (emUpdate ch inp s).l1Power = 0 ∧
        (emUpdate ch inp s).l1Voltage = 0 ∧ (emUpdate ch inp s).l1Current = 0) ∧
      (emUpdate ch inp s).energyForward = s.energyForward ∧
      (emUpdate ch inp s).energyReverse = s.energyReverse ∧
      (emUpdate ch inp s).updateIndex = (s.updateIndex + 1) % 256) ∧
    (∀ ch (d : MeterDataEm) (s : EmState), (d.emeters.getD [])[ch]? = none →
      emUpdate ch (InputEm.ok d) s = emErrorBranch s ∧
      (emErrorBranch s).energyForward = s.energyForward ∧
      (emErrorBranch s).energyReverse = s.energyReverse) ∧
    (∀ c (inp : Input3) (s : St3), inp.isCaughtFetchErr = true →
      ((update3 c inp s).acPower = 0 ∧ (update3 c inp s).l1P = 0 ∧
        (update3 c inp s).l2P = 0 ∧ (update3 c inp s).l3P = 0) ∧
      ((update3 c inp s).l1V = s.l1V ∧ (update3 c inp s).l2V = s.l2V ∧
        (update3 c inp s).l3V = s.l3V ∧ (update3 c inp s).l1C = s.l1C ∧
        (update3 c inp s).l2C = s.l2C ∧ (update3 c inp s).l3C = s.l3C) ∧
      ((update3 c inp s).energyForward = s.energyForward ∧
        (update3 c inp s).energyReverse = s.energyReverse ∧
        (update3 c inp s).l1EF = s.l1EF ∧ (update3 c inp s).l2EF = s.l2EF ∧
        (update3 c inp s).l3EF = s.l3EF ∧ (update3 c inp s).l1ER = s.l1ER ∧
        (update3 c inp s).l2ER = s.l2ER ∧ (update3 c inp s).l3ER = s.l3ER) ∧
      (update3 c inp s).updateIndex = (s.updateIndex + 1) % 256) ∧
    (∀ ch (s : EmState), emUpdate ch InputEm.httpErr s = s) ∧
    (∀ c (s : St3), update3 c Input3.httpErr s = s) ∧
    (∀ ch (s : EmState) (l : List InputEm),
      (∀ i ∈ l, InputEm.isCaughtFetchErr i = true ∨ i = InputEm.httpErr) →
      (l.foldl (fun t i => emUpdate ch i t) s).energyForward = s.energyForward ∧
      (l.foldl (fun t i => emUpdate ch i t) s).energyReverse = s.energyReverse) ∧
    (∀ c (s : St3) (l : List Input3),
      (∀ i ∈ l, Input3.isCaughtFetchErr i = true ∨ i = Input3.httpErr) →
      (l.foldl (fun t i => update3 c i t) s).energyForward = s.energyForward ∧
      (l.foldl (fun t i => update3 c i t) s).energyReverse = s.energyReverse) := by
  have hem : ∀ ch (inp : InputEm) (s : EmState),
      InputEm.isCaughtFetchErr inp = true ∨ inp = InputEm.httpErr →
      (emUpdate ch inp s).energyForward = s.energyForward ∧
      (emUpdate ch inp s).energyReverse = s.energyReverse := by
    rintro ch inp s (h | rfl)
    · rw [emUpdate_caught ch inp s h]
      exact ⟨rfl, rfl⟩
    · exact ⟨rfl, rfl⟩
  have h3 : ∀ c (inp : Input3) (s : St3),
      Input3.isCaughtFetchErr inp = true ∨ inp = Input3.httpErr →
      (update3 c inp s).energyForward = s.energyForward ∧
      (update3 c inp s).energyReverse = s.energyReverse := by
    rintro c inp s (h | rfl)
    · rw [update3_caught c inp s h]
      exact ⟨rfl, rfl⟩
    · exact ⟨rfl, rfl⟩
  refine ⟨?_, ?_, ?_, fun ch s => rfl, fun c s => rfl, ?_, ?_⟩
  · intro ch inp s h
    rw [emUpdate_caught ch inp s h]
    exact ⟨⟨rfl, rfl, rfl, rfl, rfl, rfl⟩, rfl, rfl, rfl⟩
  · intro ch d s h
    exact ⟨emUpdate_ok_noChannel ch d s h, rfl, rfl⟩
  · intro c inp s h
    rw [update3_caught c inp s h]
    exact ⟨⟨rfl, rfl, rfl, rfl⟩, ⟨rfl, rfl, rfl, rfl, rfl, rfl⟩,
      ⟨rfl, rfl, rfl, rfl, rfl, rfl, rfl, rfl⟩, rfl⟩
  · intro ch s l hl
    induction l generalizing s with
    | nil => exact ⟨rfl, rfl⟩
    | cons i rest ih =>
        have hstep := hem ch i s (hl i (List.mem_cons_self i rest))
        have htail := ih (emUpdate ch i s) (fun j hj => hl j (List.mem_cons_of_mem i hj))
        simp only [List.foldl_cons]
        exact ⟨htail.1.trans hstep.1, htail.2.trans hstep.2⟩
  · intro c s l hl
    induction l generalizing s with
    | nil => exact ⟨rfl, rfl⟩
    | cons i rest ih =>
        have hstep := h3 c i s (hl i (List.mem_cons_self i rest))
        have htail := ih (update3 c i s) (fun j hj => hl j (List.mem_cons_of_mem i hj))
        simp only [List.foldl_cons]
        exact ⟨htail.1.trans hstep.1, htail.2.trans hstep.2⟩

theorem c1_fetch_failure_frame_witness :
    ((emUpdate 0 InputEm.connErr { emInit with energyForward := 7, acPower := 900 }).acPower = 0 ∧
      (emUpdate 0 InputEm.connErr { emInit with energyForward := 7, acPower := 900 }).energyForward = 7) ∧
    ((update3 (CfgL1.val 1) Input3.timeoutErr { st3Init with l1V := 230, energyReverse := 3 }).l1V = 230 ∧
      (update3 (CfgL1.val 1) Input3.timeoutErr { st3Init with l1V := 230, energyReverse := 3 }).energyReverse = 3) ∧
    ([InputEm.connErr, InputEm.timeoutErr, InputEm.connErr].foldl
        (fun t i => emUpdate 0 i t) { emInit with energyForward := 7 }).energyForward = 7 := by
  refine ⟨⟨?_, ?_⟩, ⟨?_, ?_⟩, ?_⟩
  · exact ((c1_fetch_failure_frame.1 0 InputEm.connErr _ rfl).1).1
  · exact (c1_fetch_failure_frame.1 0 InputEm.connErr _ rfl).2.1
  · exact ((c1_fetch_failure_frame.2.2.1 (CfgL1.val 1) Input3.timeoutErr _ rfl).2.1).1
  · exact ((c1_fetch_failure_frame.2.2.1 (CfgL1.val 1) Input3.timeoutErr _ rfl).2.2.1).2.1
  · exact (c1_fetch_failure_frame.2.2.2.2.2.1 0 _ _
      (by intro i hi; fin_cases hi <;> simp [InputEm.isCaughtFetchErr])).1

/-- C3 counterexample: an HTTPError cycle is a fetch-failure outcome, yet
the counter does not increment: requests.HTTPError is not caught by the
first except clause, and the generic handler does not touch /UpdateIndex.
With a prior counter of 5, the cycle leaves 5 instead of (5+1) mod 256 =
6. -/
theorem c3_counterexample :
    (emUpdate 0 InputEm.httpErr { emInit with updateIndex := 5 }).updateIndex = 5 ∧
    (({ emInit with updateIndex := 5 } : EmState).updateIndex + 1) % 256 = 6 ∧
    (5 : ℕ) ≠ 6 :=
  ⟨rfl, rfl, by decide⟩

/-- C3 (amended): the update counter becomes (c+1) mod 256 on every
successful publish and on every fetch failure caught by the first except
clause (including the missing-channel ValueError of the EM variant and,
for the 3EM variant, only when the write sequence completes); it stays at
c on the soft invalid-sample skip, on HttpError and any other exception
reaching the generic handler, and on the 3EM partial-write outcomes
(missing total_power key or fewer than 3 channels). -/
theorem c3_update_counter :
    (∀ ch (d : MeterDataEm) (s : EmState) em,
      (d.emeters.getD [])[ch]? = some em → validFlag em.is_valid = true →
      (emUpdate ch (InputEm.ok d) s).updateIndex = (s.updateIndex + 1) % 256) ∧
    (∀ ch (inp : InputEm) (s : EmState), inp.isCaughtFetchErr = true →
      (emUpdate ch inp s).updateIndex = (s.updateIndex + 1) % 256) ∧
    (∀ ch (d : MeterDataEm) (s : EmState), (d.emeters.getD [])[ch]? = none →
      (emUpdate ch (InputEm.ok d) s).updateIndex = (s.updateIndex + 1) % 256) ∧
    (∀ ch (d : MeterDataEm) (s : EmState) em,
      (d.emeters.getD [])[ch]? = some em → validFlag em.is_valid = false →
      (emUpdate ch (InputEm.ok d) s).updateIndex = s.updateIndex) ∧
    (∀ ch (s : EmState), (emUpdate ch InputEm.httpErr s).updateIndex = s.updateIndex ∧
      (emUpdate ch InputEm.otherErr s).updateIndex = s.updateIndex) ∧
    (∀ c (d : Meter3Data) (s : St3) tp, d.total_power = some tp →
      3 ≤ d.emeters.length →
      (update3 c (Input3.ok d) s).updateIndex = (s.updateIndex + 1) % 256) ∧
    (∀ c (inp : Input3) (s : St3), inp.isCaughtFetchErr = true →
      (update3 c inp s).updateIndex = (s.updateIndex + 1) % 256) ∧
    (∀ c (d : Meter3Data) (s : St3), d.total_power = none →
      (update3 c (Input3.ok d) s).updateIndex = s.updateIndex) ∧
    (∀ c (d : Meter3Data) (s : St3), d.emeters.length < 3 →
      (update3 c (Input3.ok d) s).updateIndex = s.updateIndex) ∧
    (∀ c (s : St3), (update3 c Input3.httpErr s).updateIndex = s.updateIndex ∧
      (update3 c Input3.otherErr s).updateIndex = s.updateIndex) := by
  refine ⟨?_, ?_, ?_, ?_, fun ch s => ⟨rfl, rfl⟩, ?_, ?_, ?_, ?_, fun c s => ⟨rfl, rfl⟩⟩
  · intro ch d s em hch hv
    rw [emUpdate_ok_valid ch d s em hch hv]
    rfl
  · intro ch inp s h
    rw [emUpdate_caught ch inp s h]
    rfl
  · intro ch d s h
    rw [emUpdate_ok_noChannel ch d s h]
    rfl
  · intro ch d s em hch hv
    rw [emUpdate_ok_invalid ch d s em hch hv]
  · intro c d s tp htp hlen
    rw [update3_ok_eq, htp]
    exact upd3success_updateIndex_full tp (applyRemap c d.emeters) s
      (by rw [applyRemap_length]; exact hlen)
  · intro c inp s h
    rw [update3_caught c inp s h]
    rfl
  · intro c d s htp
    rw [update3_ok_eq, htp]
    rfl
  · intro c d s hlen
    rw [update3_ok_eq]
    exact upd3success_updateIndex_short d.total_power (applyRemap c d.emeters) s
      (by rw [applyRemap_length]; exact hlen)

theorem c3_update_counter_witness :
    (emUpdate 0
      (InputEm.ok ⟨some [⟨some (JVal.num 50), some (JVal.num 230), none, none, none, none⟩]⟩)
      { emInit with updateIndex := 255 }).updateIndex = 0 ∧
    (emUpdate 0 InputEm.valueErr { emInit with updateIndex := 9 }).updateIndex = 10 ∧
    (update3 (CfgL1.noKey)
      (Input3.ok ⟨some 77, [⟨230, 1, 10, 0, 0⟩, ⟨231, 2, 20, 0, 0⟩, ⟨232, 3, 30, 0, 0⟩]⟩)
      st3Init).updateIndex = 1 ∧
    (update3 (CfgL1.noKey) (Input3.ok ⟨some 77, [⟨230, 1, 10, 0, 0⟩]⟩)
      { st3Init with updateIndex := 8 }).updateIndex = 8 := by
  refine ⟨?_, ?_, ?_, ?_⟩
  · have h := c3_update_counter.1 0
      ⟨some [⟨some (JVal.num 50), some (JVal.num 230), none, none, none, none⟩]⟩
      { emInit with updateIndex := 255 }
      ⟨some (JVal.num 50), some (JVal.num 230), none, none, none, none⟩ rfl rfl
    rw [h]
    rfl
  · have h := c3_update_counter.2.1 0 InputEm.valueErr { emInit with updateIndex := 9 } rfl
    rw [h]
    rfl
  · have h := c3_update_counter.2.2.2.2.2.1 (CfgL1.noKey)
      ⟨some 77, [⟨230, 1, 10, 0, 0⟩, ⟨231, 2, 20, 0, 0⟩, ⟨232, 3, 30, 0, 0⟩]⟩
      st3Init 77 rfl (by decide)
    rw [h]
    rfl
  · exact c3_update_counter.2.2.2.2.2.2.2.2.1 (CfgL1.noKey)
      ⟨some 77, [⟨230, 1, 10, 0, 0⟩]⟩ { st3Init with updateIndex := 8 } (by decide)

/-- C5 counterexample: the 3EM variant's update never writes the
aggregate /Ac/Voltage and /Ac/Current data points, so after a successful
publish of a sample whose phase-1 voltage is 230 V the aggregate voltage
is still its initial 0, not 230. -/
theorem c5_counterexample :
    (update3 (CfgL1.val 1)
      (Input3.ok ⟨some 100, [⟨230, 1, 10, 0, 0⟩, ⟨231, 2, 20, 0, 0⟩, ⟨232, 3, 30, 0, 0⟩]⟩)
      st3Init).acVoltage = 0 ∧
    (update3 (CfgL1.val 1)
      (Input3.ok ⟨some 100, [⟨230, 1, 10, 0, 0⟩, ⟨231, 2, 20, 0, 0⟩, ⟨232, 3, 30, 0, 0⟩]⟩)
      st3Init).l1V = 230 ∧
    (0 : ℚ) ≠ 230 :=
  ⟨rfl, rfl, by norm_num⟩

/-- C5 (amended): in the EM variant every successful publish leaves the
aggregate voltage equal to the phase-1 voltage and the aggregate current
equal to the phase-1 current (the only present phase, hence the sum over
present phases); in the 3EM variant the aggregate /Ac/Voltage and
/Ac/Current data points are never written by the update cycle and keep
their prior values (initially 0) on every outcome. -/
theorem c5_aggregate_consistency :
    (∀ ch (d : MeterDataEm) (s : EmState) em,
      (d.emeters.getD [])[ch]? = some em → validFlag em.is_valid = true →
      (emUpdate ch (InputEm.ok d) s).acVoltage = (emUpdate ch (InputEm.ok d) s).l1Voltage ∧
      (emUpdate ch (InputEm.ok d) s).acCurrent = (emUpdate ch (InputEm.ok d) s).l1Current) ∧
    (∀ c (inp : Input3) (s : St3),
      (update3 c inp s).acVoltage = s.acVoltage ∧
      (update3 c inp s).acCurrent = s.acCurrent) := by
  refine ⟨?_, ?_⟩
  · intro ch d s em hch hv
    rw [emUpdate_ok_valid ch d s em hch hv]
    exact ⟨rfl, rfl⟩
  · intro c inp s
    cases inp with
    | ok d =>
        rw [update3_ok_eq]
        exact ⟨upd3success_acVoltage _ _ _, upd3success_acCurrent _ _ _⟩
    | valueErr => exact ⟨rfl, rfl⟩
    | connErr => exact ⟨rfl, rfl⟩
    | timeoutErr => exact ⟨rfl, rfl⟩
    | httpErr => exact ⟨rfl, rfl⟩
    | otherErr => exact ⟨rfl, rfl⟩

theorem c5_aggregate_consistency_witness :
    (emUpdate 0
      (InputEm.ok ⟨some [⟨some (JVal.num 1000), some (JVal.num 230), some (JVal.num 100),
        none, none, none⟩]⟩) emInit).acVoltage =
      (emUpdate 0
        (InputEm.ok ⟨some [⟨some (JVal.num 1000), some (JVal.num 230), some (JVal.num 100),
          none, none, none⟩]⟩) emInit).l1Voltage ∧
    (update3 CfgL1.noSection Input3.connErr { st3Init with acVoltage := 4 }).acVoltage = 4 :=
  ⟨(c5_aggregate_consistency.1 0
      ⟨some [⟨some (JVal.num 1000), some (JVal.num 230), some (JVal.num 100),
        none, none, none⟩]⟩ emInit
      ⟨some (JVal.num 1000), some (JVal.num 230), some (JVal.num 100), none, none, none⟩
      rfl rfl).1,
   (c5_aggregate_consistency.2 CfgL1.noSection Input3.connErr _).1⟩

/-- The channel object of the end-to-end sample of claim C4. -/
def emC4 : Emeter :=
  ⟨some (JVal.num 1500), some (JVal.num 230), some (JVal.num 200),
    some (JVal.num 123456), some (JVal.num 0), some (JVal.boolean true)⟩

/-- The fetched status JSON of claim C4 (the sample on channel 0). -/
def dC4 : MeterDataEm := ⟨some [emC4]⟩

/-- C4: in the EM variant every successful cycle publishes the
device-reported cumulative total divided by 1000 as forward energy and
total_returned divided by 1000 as reverse energy (pass-through mode); on
the concrete sample with power 1500 W, voltage 230 V, reactive 200 var,
total 123456 Wh on channel 0 the published current is
sqrt(1500^2 + 200^2) / 230 (a value strictly between 6.57 and 6.58 A) and
the published forward energy is 123.456 kWh. -/
theorem c4_energy_passthrough :
    (∀ ch (d : MeterDataEm) (s : EmState) em tt tr,
      (d.emeters.getD [])[ch]? = some em → validFlag em.is_valid = true →
      em.total = some (JVal.num tt) → em.total_returned = some (JVal.num tr) →
      (emUpdate ch (InputEm.ok d) s).energyForward = tt / 1000 ∧
      (emUpdate ch (InputEm.ok d) s).energyReverse = tr / 1000) ∧
    ((emUpdate 0 (InputEm.ok dC4) emInit).acCurrent =
        Real.sqrt ((1500 : ℝ) ^ 2 + (200 : ℝ) ^ 2) / 230 ∧
      (6.57 : ℝ) < (emUpdate 0 (InputEm.ok dC4) emInit).acCurrent ∧
      (emUpdate 0 (InputEm.ok dC4) emInit).acCurrent < 6.58 ∧
      (emUpdate 0 (InputEm.ok dC4) emInit).energyForward = 123.456) := by
  have hpass : ∀ ch (d : MeterDataEm) (s : EmState) em tt tr,
      (d.emeters.getD [])[ch]? = some em → validFlag em.is_valid = true →
      em.total = some (JVal.num tt) → em.total_returned = some (JVal.num tr) →
      (emUpdate ch (InputEm.ok d) s).energyForward = tt / 1000 ∧
      (emUpdate ch (InputEm.ok d) s).energyReverse = tr / 1000 := by
    intro ch d s em tt tr hch hv htot hret
    rw [emUpdate_ok_valid ch d s em hch hv]
    constructor
    · show coerceNum em.total / 1000 = tt / 1000
      rw [htot]
      rfl
    · show coerceNum em.total_returned / 1000 = tr / 1000
      rw [hret]
      rfl
  have hupd : emUpdate 0 (InputEm.ok dC4) emInit = emPublish emC4 emInit :=
    emUpdate_ok_valid 0 dC4 emInit emC4 rfl rfl
  have hcur : (emPublish emC4 emInit).acCurrent =
      calc_current (.fin 1500) (.fin 200) (.fin 230) := rfl
  have hval : calc_current (.fin 1500) (.fin 200) (.fin 230) =
      Real.sqrt ((1500 : ℝ) ^ 2 + (200 : ℝ) ^ 2) / 230 := by
    rw [calc_current_fin, if_neg (by norm_num)]
    norm_num
  have hformula : (emUpdate 0 (InputEm.ok dC4) emInit).acCurrent =
      Real.sqrt ((1500 : ℝ) ^ 2 + (200 : ℝ) ^ 2) / 230 := by
    rw [hupd, hcur, hval]
  refine ⟨hpass, hformula, ?_, ?_, ?_⟩
  · rw [hformula]
    rw [lt_div_iff₀ (by norm_num : (0 : ℝ) < 230)]
    have : (6.57 : ℝ) * 230 = 1511.1 := by norm_num
    rw [this, show ((1500 : ℝ) ^ 2 + (200 : ℝ) ^ 2) = 2290000 by norm_num]
    rw [Real.lt_sqrt (by norm_num)]
    norm_num
  · rw [hformula]
    rw [div_lt_iff₀ (by norm_num : (0 : ℝ) < 230)]
    rw [show ((1500 : ℝ) ^ 2 + (200 : ℝ) ^ 2) = 2290000 by norm_num]
    have h1 : Real.sqrt 2290000 < 1513.4 := by
      rw [Real.sqrt_lt' (by norm_num)]
      norm_num
    have h2 : (1513.4 : ℝ) ≤ 6.58 * 230 := by norm_num
    exact h1.trans_le h2
  · rw [hupd]
    show coerceNum emC4.total / 1000 = 123.456
    norm_num [emC4, coerceNum]

theorem c4_energy_passthrough_witness :
    (emUpdate 0 (InputEm.ok dC4) emInit).energyForward = 123456 / 1000 ∧
    (emUpdate 0 (InputEm.ok dC4) emInit).energyReverse = 0 / 1000 :=
  c4_energy_passthrough.1 0 dC4 emInit emC4 123456 0 rfl rfl rfl rfl

/-- A field is absent from the channel object, or present with a JSON
null value (Python None). -/
def nullish (f : Option JVal) : Prop := f = none ∨ f = some JVal.null

theorem coerceNum_nullish (f : Option JVal) (h : nullish f) : coerceNum f = 0 := by
  rcases h with h | h <;> rw [h] <;> rfl

theorem emPublish_acPower (em : Emeter) (s : EmState) :
    (emPublish em s).acPower = coerceNum em.power := rfl

theorem emPublish_acVoltage (em : Emeter) (s : EmState) :
    (emPublish em s).acVoltage = coerceNum em.voltage := rfl

theorem emPublish_acCurrent (em : Emeter) (s : EmState) :
    (emPublish em s).acCurrent =
      calc_current (.fin (coerceNum em.power)) (.fin (coerceNum em.reactive))
        (.fin (coerceNum em.voltage)) := rfl

/-- C10: in the EM variant's update cycle, a channel field that is absent
or JSON null coerces to 0.0 instead of raising: with a nullish power the
cycle publishes 0 W, with a nullish voltage it publishes 0 V and (because
the derived current divides by a non-positive voltage) 0.0 A, with a
nullish total or total_returned it publishes 0.0 kWh for the
corresponding energy direction, a nullish reactive enters the current
derivation as 0, and the cycle still completes as a normal publish
(update counter incremented). -/
theorem c10_nullish_coercion (ch : ℕ) (d : MeterDataEm) (s : EmState) (em : Emeter)
    (hch : (d.emeters.getD [])[ch]? = some em)
    (hv : validFlag em.is_valid = true) :
    (nullish em.power → (emUpdate ch (InputEm.ok d) s).acPower = 0 ∧
      (emUpdate ch (InputEm.ok d) s).l1Power = 0) ∧
    (nullish em.voltage → (emUpdate ch (InputEm.ok d) s).acVoltage = 0 ∧
      (emUpdate ch (InputEm.ok d) s).l1Voltage = 0 ∧
      (emUpdate ch (InputEm.ok d) s).acCurrent = 0 ∧
      (emUpdate ch (InputEm.ok d) s).l1Current = 0) ∧
    (nullish em.total → (emUpdate ch (InputEm.ok d) s).energyForward = 0) ∧
    (nullish em.total_returned → (emUpdate ch (InputEm.ok d) s).energyReverse = 0) ∧
    (nullish em.reactive → (emUpdate ch (InputEm.ok d) s).acCurrent =
      calc_current (.fin (coerceNum em.power)) (.fin 0) (.fin (coerceNum em.voltage))) ∧
    (emUpdate ch (InputEm.ok d) s).updateIndex = (s.updateIndex + 1) % 256 := by
  rw [emUpdate_ok_valid ch d s em hch hv]
  have hzero : ∀ p q : ℚ, calc_current (.fin p) (.fin q) (.fin 0) = 0 := by
    intro p q
    rw [calc_current_fin, if_pos le_rfl]
  refine ⟨?_, ?_, ?_, ?_, ?_, rfl⟩
  · intro h
    constructor
    · rw [emPublish_acPower, coerceNum_nullish _ h]
    · show coerceNum em.power = 0
      rw [coerceNum_nullish _ h]
  · intro h
    refine ⟨?_, ?_, ?_, ?_⟩
    · rw [emPublish_acVoltage, coerceNum_nullish _ h]
    · show coerceNum em.voltage = 0
      rw [coerceNum_nullish _ h]
    · rw [emPublish_acCurrent, coerceNum_nullish _ h, hzero]
    · show calc_current (.fin (coerceNum em.power)) (.fin (coerceNum em.reactive))
        (.fin (coerceNum em.voltage)) = 0
      rw [coerceNum_nullish _ h, hzero]
  · intro h
    show coerceNum em.total / 1000 = 0
    rw [coerceNum_nullish _ h]
    norm_num
  · intro h
    show coerceNum em.total_returned / 1000 = 0
    rw [coerceNum_nullish _ h]
    norm_num
  · intro h
    rw [emPublish_acCurrent, coerceNum_nullish _ h]

theorem c10_nullish_coercion_witness :
    (emUpdate 0 (InputEm.ok ⟨some [⟨none, some JVal.null, none, none, some JVal.null, none⟩]⟩)
      emInit).acPower = 0 ∧
    (emUpdate 0 (InputEm.ok ⟨some [⟨none, some JVal.null, none, none, some JVal.null, none⟩]⟩)
      emInit).acCurrent = 0 ∧
    (emUpdate 0 (InputEm.ok ⟨some [⟨none, some JVal.null, none, none, some JVal.null, none⟩]⟩)
      emInit).energyForward = 0 ∧
    (emUpdate 0 (InputEm.ok ⟨some [⟨none, some JVal.null, none, none, some JVal.null, none⟩]⟩)
      emInit).energyReverse = 0 ∧
    (emUpdate 0 (InputEm.ok ⟨some [⟨none, some JVal.null, none, none, some JVal.null, none⟩]⟩)
      emInit).updateIndex = 1 := by
  have h := c10_nullish_coercion 0
    ⟨some [⟨none, some JVal.null, none, none, some JVal.null, none⟩]⟩ emInit
    ⟨none, some JVal.null, none, none, some JVal.null, none⟩ rfl rfl
  exact ⟨(h.1 (Or.inl rfl)).1, (h.2.1 (Or.inr rfl)).2.2.1, h.2.2.1 (Or.inl rfl),
    h.2.2.2.1 (Or.inr rfl), h.2.2.2.2.2⟩

/-- C8 counterexample: the 3EM variant's _getShellyData has no retry at
all: when the first (and only) GET raises a read-timeout, the failure is
surfaced after exactly 1 GET, not the 2 GETs the claim's
retry-on-read-timeout guarantee would require. -/
theorem c8_counterexample :
    (threeEmGetShellyData Attempt3.readTimeout).2 = 1 ∧ (1 : ℕ) ≠ 2 :=
  ⟨rfl, by decide⟩

/-- C8 (amended): the EM variant's fetch issues at most two GETs and
issues a second one exactly when the first attempt raises a read-timeout;
a non-2xx status or a malformed (non-JSON or non-object) body is surfaced
immediately after a single GET.  The 3EM variant's fetch issues exactly
one GET on every outcome, including a read-timeout (it never retries). -/
theorem c8_fetch_retry :
    (∀ a1 a2, (emGetShellyData a1 a2).2 ≤ 2) ∧
    (∀ a1 a2, (emGetShellyData a1 a2).2 = 2 ↔ a1 = AttemptEm.readTimeout) ∧
    (∀ b a2, emGetShellyData (AttemptEm.resp false b) a2 =
      (Except.error PyExc.httpError, 1)) ∧
    (∀ a2, emGetShellyData (AttemptEm.resp true BodyEm.notJson) a2 =
      (Except.error PyExc.valueError, 1)) ∧
    (∀ a2, emGetShellyData (AttemptEm.resp true BodyEm.jsonNonDict) a2 =
      (Except.error PyExc.valueError, 1)) ∧
    (∀ a : Attempt3, (threeEmGetShellyData a).2 = 1) := by
  refine ⟨?_, ?_, ?_, fun a2 => rfl, fun a2 => rfl, ?_⟩
  · intro a1 a2
    cases a1 <;> cases a2 <;> simp [emGetShellyData]
  · intro a1 a2
    cases a1 <;> cases a2 <;> simp [emGetShellyData]
  · intro b a2
    rfl
  · intro a
    cases a <;> rfl

theorem c8_fetch_retry_witness :
    (emGetShellyData AttemptEm.readTimeout AttemptEm.connectErr).2 = 2 ∧
    (emGetShellyData AttemptEm.connectErr AttemptEm.connectErr).2 ≤ 2 ∧
    emGetShellyData (AttemptEm.resp false BodyEm.notJson) AttemptEm.readTimeout =
      (Except.error PyExc.httpError, 1) ∧
    (threeEmGetShellyData (Attempt3.resp true (Body3.jsonData ⟨some 5, []⟩))).2 = 1 :=
  ⟨(c8_fetch_retry.2.1 AttemptEm.readTimeout AttemptEm.connectErr).mpr rfl,
   c8_fetch_retry.1 AttemptEm.connectErr AttemptEm.connectErr,
   c8_fetch_retry.2.2.1 BodyEm.notJson AttemptEm.readTimeout,
   c8_fetch_retry.2.2.2.2.2 (Attempt3.resp true (Body3.jsonData ⟨some 5, []⟩))⟩

theorem emInstanceLoop_exits (l : List EmDeviceCfg) (seen : List ℕ)
    (h : (∃ d ∈ l, d.deviceInstance = InstField.invalid) ∨
      (¬ (l.map (fun d => d.deviceInstance)).Nodup ∧
        ∀ d ∈ l, d.deviceInstance ≠ InstField.invalid) ∨
      (∃ d ∈ l, ∃ n ∈ seen, d.deviceInstance = InstField.digits n)) :
    emInstanceLoop l seen = StartOutcome.exits 1 := by
  induction l generalizing seen with
  | nil =>
      rcases h with ⟨d, hd, -⟩ | ⟨hnd, -⟩ | ⟨d, hd, -⟩
      · exact absurd hd (List.not_mem_nil d)
      · exact absurd List.nodup_nil hnd
      · exact absurd hd (List.not_mem_nil d)
  | cons d0 rest ih =>
      cases hd0 : d0.deviceInstance with
      | invalid => simp [emInstanceLoop, hd0]
      | digits n =>
          by_cases hn : n ∈ seen
          · simp [emInstanceLoop, hd0, hn]
          · have hloop : emInstanceLoop (d0 :: rest) seen =
                emInstanceLoop rest (n :: seen) := by
              simp [emInstanceLoop, hd0, hn]
            rw [hloop]
            apply ih
            rcases h with ⟨d, hd, hinv⟩ | ⟨hnd, hall⟩ | ⟨d, hd, n2, hn2, hinst⟩
            · rcases List.mem_cons.mp hd with rfl | hd
              · rw [hd0] at hinv
                exact absurd hinv (by simp)
              · exact Or.inl ⟨d, hd, hinv⟩
            · rw [List.map_cons, hd0, List.nodup_cons] at hnd
              push_neg at hnd
              by_cases hmem : InstField.digits n ∈ rest.map (fun d => d.deviceInstance)
              · obtain ⟨d, hd, hinst⟩ := List.mem_map.mp hmem
                exact Or.inr (Or.inr ⟨d, hd, n, List.mem_cons_self n seen, hinst⟩)
              · exact Or.inr (Or.inl ⟨hnd hmem, fun d hd => hall d (List.mem_cons_of_mem d0 hd)⟩)
            · rcases List.mem_cons.mp hd with rfl | hd
              · rw [hd0] at hinst
                have : n = n2 := by injection hinst
                exact absurd (this ▸ hn2) hn
              · exact Or.inr (Or.inr ⟨d, hd, n2, List.mem_cons_of_mem n hn2, hinst⟩)

theorem emMainStartup_noGlobal (c : EmConfig) (h : c.hasGlobal = false) :
    emMainStartup c = StartOutcome.exits 1 := by
  simp [emMainStartup, h]

theorem emMainStartup_loop (c : EmConfig) (hg : c.hasGlobal = true)
    (hne : c.devices ≠ []) :
    emMainStartup c = emInstanceLoop c.devices [] := by
  simp [emMainStartup, hg, hne]

theorem threeEmStartup_nonzero_only (c : Cfg3) (n : ℕ)
    (h : threeEmStartup c = StartOutcome.exits n) (hn : n ≠ 0) :
    c.hasLogLevel = false ∨ c.role = some Role3.other := by
  rcases c with ⟨ll, atp, hko, di, cn, role⟩
  cases ll <;> cases atp <;> cases hko <;>
    rcases di with _ | (_ | m) <;> cases cn <;>
    rcases role with _ | (_ | _ | _) <;>
    simp_all [threeEmStartup]

/-- C9 counterexample: in the 3EM variant a non-integer DeviceInstance
makes int() raise ValueError inside main's try block; main catches it,
logs, and returns normally, so the process exits with code 0 — not the
non-zero exit the claim requires (shown on a config whose other fields
are all fine: LogLevel present, AccessType OnPremise with a Host,
CustomName and an allowed Role present). -/
theorem c9_counterexample :
    threeEmStartup ⟨true, true, true, some Str3Int.notInt, true, some Role3.grid⟩ =
      StartOutcome.exits 0 ∧
    ∀ n : ℕ, threeEmStartup ⟨true, true, true, some Str3Int.notInt, true, some Role3.grid⟩ =
      StartOutcome.exits n → n = 0 := by
  refine ⟨rfl, ?_⟩
  intro n h
  have h0 : StartOutcome.exits 0 = StartOutcome.exits n := by
    rw [← h]
    rfl
  injection h0 with h1
  exact h1.symm

/-- C9 (amended): the EM variant's parent process exits 1 before spawning
anything on a missing [global] section, an absent device section list, a
missing or non-integer DeviceInstance, or a duplicate DeviceInstance; the
spawned per-device child process exits 1 on an invalid DeviceInstance, on
a Role outside the allowed set and on a missing Host.  The 3EM variant
exits non-zero only on an out-of-range Role (an uncaught SystemExit) and
on a missing LogLevel key (an uncaught KeyError before the try block);
every other configuration failure — the missing-ONPREMISE-section check,
a missing or non-integer DeviceInstance, a missing CustomName or Role
key — raises ValueError or KeyError inside main's try block, is caught
and logged, and the process exits 0. -/
theorem c9_startup_validation :
    (∀ c : EmConfig, c.hasGlobal = false → emMainStartup c = StartOutcome.exits 1) ∧
    (∀ c : EmConfig, c.devices = [] → emMainStartup c = StartOutcome.exits 1) ∧
    (∀ c : EmConfig, (∃ d ∈ c.devices, d.deviceInstance = InstField.invalid) →
      emMainStartup c = StartOutcome.exits 1) ∧
    (∀ c : EmConfig, ¬ (c.devices.map (fun d => d.deviceInstance)).Nodup →
      (∀ d ∈ c.devices, d.deviceInstance ≠ InstField.invalid) →
      emMainStartup c = StartOutcome.exits 1) ∧
    (∀ d : EmDeviceCfg, d.deviceInstance = InstField.invalid →
      emChildStartup d = StartOutcome.exits 1) ∧
    (∀ d : EmDeviceCfg, d.role = RoleField.other →
      emChildStartup d = StartOutcome.exits 1) ∧
    (∀ c : Cfg3, c.hasLogLevel = false → threeEmStartup c = StartOutcome.exits 1) ∧
    (∀ c : Cfg3, c.hasLogLevel = true → c.accessTypeOnPremise = true →
      c.onpremiseHostOk = false → threeEmStartup c = StartOutcome.exits 0) ∧
    (∀ c : Cfg3, c.hasLogLevel = true →
      (c.accessTypeOnPremise = true → c.onpremiseHostOk = true) →
      (c.deviceInstance = none ∨ c.deviceInstance = some Str3Int.notInt) →
      threeEmStartup c = StartOutcome.exits 0) ∧
    (∀ (c : Cfg3) (n : ℤ), c.hasLogLevel = true →
      (c.accessTypeOnPremise = true → c.onpremiseHostOk = true) →
      c.deviceInstance = some (Str3Int.int n) → c.hasCustomName = true →
      c.role = some Role3.other → threeEmStartup c = StartOutcome.exits 1) ∧
    (∀ d : EmDeviceCfg, d.hasHost = false →
      emChildStartup d = StartOutcome.exits 1) ∧
    (∀ c : Cfg3, c.hasLogLevel = true →
      (c.accessTypeOnPremise = true → c.onpremiseHostOk = true) →
      c.hasCustomName = false → threeEmStartup c = StartOutcome.exits 0) ∧
    (∀ c : Cfg3, c.hasLogLevel = true →
      (c.accessTypeOnPremise = true → c.onpremiseHostOk = true) →
      c.role = none → threeEmStartup c = StartOutcome.exits 0) ∧
    (∀ (c : Cfg3) (n : ℕ), threeEmStartup c = StartOutcome.exits n → n ≠ 0 →
      c.hasLogLevel = false ∨ c.role = some Role3.other) := by
  have hifneg : ∀ c : Cfg3, (c.accessTypeOnPremise = true → c.onpremiseHostOk = true) →
      ¬ (c.accessTypeOnPremise = true ∧ c.onpremiseHostOk = false) := by
    rintro c himp ⟨ha, hb⟩
    rw [himp ha] at hb
    simp at hb
  refine ⟨fun c h => emMainStartup_noGlobal c h, ?_, ?_, ?_, ?_, ?_, ?_, ?_, ?_, ?_,
    ?_, ?_, ?_, fun c n h hn => threeEmStartup_nonzero_only c n h hn⟩
  · intro c h
    cases hg : c.hasGlobal
    · exact emMainStartup_noGlobal c hg
    · simp [emMainStartup, hg, h]
  · intro c h
    cases hg : c.hasGlobal
    · exact emMainStartup_noGlobal c hg
    · obtain ⟨d, hd, hinv⟩ := h
      rw [emMainStartup_loop c hg (List.ne_nil_of_mem hd)]
      exact emInstanceLoop_exits c.devices [] (Or.inl ⟨d, hd, hinv⟩)
  · intro c hnd hall
    cases hg : c.hasGlobal
    · exact emMainStartup_noGlobal c hg
    · have hne : c.devices ≠ [] := by
        intro hnil
        rw [hnil] at hnd
        exact hnd List.nodup_nil
      rw [emMainStartup_loop c hg hne]
      exact emInstanceLoop_exits c.devices [] (Or.inr (Or.inl ⟨hnd, hall⟩))
  · intro d h
    simp [emChildStartup, h]
  · intro d h
    cases hdi : d.deviceInstance <;> simp [emChildStartup, hdi, h]
  · intro c h
    simp [threeEmStartup, h]
  · intro c hll ha hh
    simp [threeEmStartup, hll, ha, hh]
  · intro c hll himp hdi
    rcases hdi with hdi | hdi <;>
      simp [threeEmStartup, hll, hifneg c himp, hdi]
  · intro c n hll himp hdi hcn hr
    simp [threeEmStartup, hll, hifneg c himp, hdi, hcn, hr]
  · intro d h
    cases hdi : d.deviceInstance <;> cases hr : d.role <;>
      simp [emChildStartup, hdi, hr, h]
  · intro c hll himp hcn
    rcases hdi : c.deviceInstance with _ | di
    · simp [threeEmStartup, hll, hifneg c himp, hdi]
    · cases di <;> simp [threeEmStartup, hll, hifneg c himp, hdi, hcn]
  · intro c hll himp hrole
    rcases hdi : c.deviceInstance with _ | di
    · simp [threeEmStartup, hll, hifneg c himp, hdi]
    · cases di with
      | notInt => simp [threeEmStartup, hll, hifneg c himp, hdi]
      | int m =>
          cases hcn : c.hasCustomName <;>
            simp [threeEmStartup, hll, hifneg c himp, hdi, hcn, hrole]

theorem c9_startup_validation_witness :
    emMainStartup ⟨false, [⟨InstField.digits 40, RoleField.grid, true⟩]⟩ =
      StartOutcome.exits 1 ∧
    emMainStartup ⟨true, []⟩ = StartOutcome.exits 1 ∧
    emMainStartup ⟨true, [⟨InstField.invalid, RoleField.grid, true⟩]⟩ =
      StartOutcome.exits 1 ∧
    emMainStartup ⟨true, [⟨InstField.digits 40, RoleField.grid, true⟩,
      ⟨InstField.digits 40, RoleField.pvinverter, true⟩]⟩ = StartOutcome.exits 1 ∧
    emChildStartup ⟨InstField.digits 40, RoleField.other, true⟩ = StartOutcome.exits 1 ∧
    emChildStartup ⟨InstField.digits 40, RoleField.grid, false⟩ = StartOutcome.exits 1 ∧
    threeEmStartup ⟨true, true, false, some (Str3Int.int 40), true, some Role3.grid⟩ =
      StartOutcome.exits 0 ∧
    threeEmStartup ⟨true, false, false, some Str3Int.notInt, true, some Role3.grid⟩ =
      StartOutcome.exits 0 ∧
    threeEmStartup ⟨true, false, false, some (Str3Int.int 40), false, some Role3.grid⟩ =
      StartOutcome.exits 0 ∧
    threeEmStartup ⟨true, false, false, some (Str3Int.int 40), true, none⟩ =
      StartOutcome.exits 0 ∧
    threeEmStartup ⟨true, false, false, some (Str3Int.int 40), true, some Role3.other⟩ =
      StartOutcome.exits 1 ∧
    ((⟨true, false, false, some (Str3Int.int 40), true, some Role3.other⟩ : Cfg3).hasLogLevel
        = false ∨
      (⟨true, false, false, some (Str3Int.int 40), true, some Role3.other⟩ : Cfg3).role =
        some Role3.other) := by
  obtain ⟨h1, h2, h3, h4, h5, h6, h7, h8, h9, h10, h11, h12, h13, h14⟩ :=
    c9_startup_validation
  exact ⟨h1 _ rfl,
    h2 ⟨true, []⟩ rfl,
    h3 _ ⟨⟨InstField.invalid, RoleField.grid, true⟩, by simp, rfl⟩,
    h4 _ (by decide) (by decide),
    h6 _ rfl,
    h11 _ rfl,
    h8 _ rfl rfl rfl,
    h9 _ rfl (by decide) (Or.inr rfl),
    h12 _ rfl (by decide) rfl,
    h13 _ rfl (by decide) rfl,
    h10 _ 40 rfl (by decide) rfl rfl rfl,
    h14 ⟨true, false, false, some (Str3Int.int 40), true, some Role3.other⟩ 1 rfl
      (by decide)⟩
